import Mathlib

/-!
# PyPTO core: `DataType` queries and `Span`

A shallow embedding of `include/pypto/core/dtype.h` and of the `Span` class
declared in `include/pypto/ir/core.h`, with the properties of the
specification stated and proved over it.

`DataType` is an `enum class` over `uint8_t`.  A C++ value of that type can
hold any of the 256 underlying values (for instance after a `static_cast`),
so the embedding is a wrapper around the underlying tag, and the eighteen
enumerators are named constants.  A `switch` over the enumerators becomes a
chain of comparisons against those constants, ending in the `default` branch.
-/

namespace pypto

/-- The type `enum class DataType : uint8_t` (dtype.h, lines 41-69): the
underlying 8-bit tag. -/
structure DataType where
  tag : Fin 256
  deriving DecidableEq

namespace DataType

/-- Boolean (true/false). -/
def BOOL : DataType := ⟨0⟩
/-- 4-bit signed integer. -/
def INT4 : DataType := ⟨1⟩
/-- 8-bit signed integer. -/
def INT8 : DataType := ⟨2⟩
/-- 16-bit signed integer. -/
def INT16 : DataType := ⟨3⟩
/-- 32-bit signed integer. -/
def INT32 : DataType := ⟨4⟩
/-- 64-bit signed integer. -/
def INT64 : DataType := ⟨5⟩
/-- 4-bit unsigned integer. -/
def UINT4 : DataType := ⟨6⟩
/-- 8-bit unsigned integer. -/
def UINT8 : DataType := ⟨7⟩
/-- 16-bit unsigned integer. -/
def UINT16 : DataType := ⟨8⟩
/-- 32-bit unsigned integer. -/
def UINT32 : DataType := ⟨9⟩
/-- 64-bit unsigned integer. -/
def UINT64 : DataType := ⟨10⟩
/-- 4-bit floating point. -/
def FP4 : DataType := ⟨11⟩
/-- 8-bit floating point. -/
def FP8 : DataType := ⟨12⟩
/-- 16-bit floating point (IEEE 754 half precision). -/
def FP16 : DataType := ⟨13⟩
/-- 32-bit floating point (IEEE 754 single precision). -/
def FP32 : DataType := ⟨14⟩
/-- 16-bit brain floating point. -/
def BF16 : DataType := ⟨15⟩
/-- 4-bit Hisilicon float. -/
def HF4 : DataType := ⟨16⟩
/-- 8-bit Hisilicon float. -/
def HF8 : DataType := ⟨17⟩

/-- The eighteen enumerators, in declaration order. -/
def declared : List DataType :=
  [BOOL, INT4, INT8, INT16, INT32, INT64, UINT4, UINT8, UINT16, UINT32, UINT64,
   FP4, FP8, FP16, FP32, BF16, HF4, HF8]

end DataType

open DataType

/-- The function `GetDataTypeBit` (dtype.h, lines 80-108): storage size in bits. -/
def GetDataTypeBit (dtype : DataType) : Nat :=
  if dtype = INT4 ∨ dtype = UINT4 ∨ dtype = FP4 ∨ dtype = HF4 then 4
  else if dtype = INT8 ∨ dtype = UINT8 ∨ dtype = FP8 ∨ dtype = HF8 ∨ dtype = BOOL then 8
  else if dtype = INT16 ∨ dtype = UINT16 ∨ dtype = FP16 ∨ dtype = BF16 then 16
  else if dtype = INT32 ∨ dtype = UINT32 ∨ dtype = FP32 then 32
  else if dtype = INT64 ∨ dtype = UINT64 then 64
  else 0

/-- The function `DataTypeToString` (dtype.h, lines 116-157), with the case
labels in the order of the source. -/
def DataTypeToString (dtype : DataType) : String :=
  if dtype = INT4 then "int4"
  else if dtype = INT8 then "int8"
  else if dtype = INT16 then "int16"
  else if dtype = INT32 then "int32"
  else if dtype = INT64 then "int64"
  else if dtype = UINT4 then "uint4"
  else if dtype = FP4 then "fp4"
  else if dtype = FP8 then "fp8"
  else if dtype = FP16 then "fp16"
  else if dtype = FP32 then "fp32"
  else if dtype = BF16 then "bfloat16"
  else if dtype = HF4 then "hf4"
  else if dtype = HF8 then "hf8"
  else if dtype = UINT8 then "uint8"
  else if dtype = UINT16 then "uint16"
  else if dtype = UINT32 then "uint32"
  else if dtype = UINT64 then "uint64"
  else if dtype = BOOL then "bool"
  else "unknown"

/-- The function `IsFloat` (dtype.h, lines 165-169). -/
def IsFloat (dtype : DataType) : Bool :=
  dtype == FP4 || dtype == FP8 || dtype == FP16 ||
  dtype == FP32 || dtype == BF16 || dtype == HF4 ||
  dtype == HF8

/-- The function `IsSignedInt` (dtype.h, lines 177-180). -/
def IsSignedInt (dtype : DataType) : Bool :=
  dtype == INT4 || dtype == INT8 || dtype == INT16 ||
  dtype == INT32 || dtype == INT64

/-- The function `IsUnsignedInt` (dtype.h, lines 188-191). -/
def IsUnsignedInt (dtype : DataType) : Bool :=
  dtype == UINT4 || dtype == UINT8 || dtype == UINT16 ||
  dtype == UINT32 || dtype == UINT64

/-- The function `IsInt` (dtype.h, line 199). -/
def IsInt (dtype : DataType) : Bool := IsSignedInt dtype || IsUnsignedInt dtype

/-- Quantification over all 256 tag values is decidable by enumeration. -/
instance DataType.decidableForall (P : DataType → Prop) [DecidablePred P] :
    Decidable (∀ d : DataType, P d) :=
  decidable_of_iff (∀ t : Fin 256, P ⟨t⟩)
    ⟨fun h d => h d.tag, fun h t => h ⟨t⟩⟩

namespace ir

/-- The class `Span` (core.h, lines 28-34): the five `const` data members.
The four coordinates are C++ `int`s; no arithmetic is performed on them, so
they are embedded as integers. -/
structure Span where
  filename_ : String
  begin_line_ : Int
  begin_column_ : Int
  end_line_ : Int
  end_column_ : Int
  deriving DecidableEq

namespace Span

set_option linter.dupNamespace false

/-- Modelled from the spec: the body of the constructor `Span::Span`, which
core.h (line 45) only declares.  The spec says it "stores all five fields
verbatim" with "no range checking". -/
def Span (file : String) (begin_line begin_column end_line end_column : Int) :
    ir.Span :=
  ⟨file, begin_line, begin_column, end_line, end_column⟩

/-- The call `Span(file, begin_line, begin_column)`: the declaration in core.h
(line 45) gives `end_line` and `end_column` the default argument `-1`. -/
def SpanDefaultEnd (file : String) (begin_line begin_column : Int) : ir.Span :=
  Span file begin_line begin_column (-1) (-1)

/-- Modelled from the spec: the body of `Span::is_valid`, which core.h
(line 59) only declares.  The spec gives it as
`begin_line > 0 && begin_column > 0 && end_line > 0 && end_column > 0`; the
declaration is documented "true if all line/column numbers are positive". -/
def is_valid (s : ir.Span) : Bool :=
  decide (s.begin_line_ > 0) && decide (s.begin_column_ > 0) &&
  decide (s.end_line_ > 0) && decide (s.end_column_ > 0)

/-- Modelled from the spec: the body of `Span::to_string`, which core.h
(line 52) only declares.  The spec gives the rendering as
`"<filename>:<begin_line>:<begin_column>"`. -/
def to_string (s : ir.Span) : String :=
  s.filename_ ++ ":" ++ toString s.begin_line_ ++ ":" ++ toString s.begin_column_

/-- Modelled from the spec: the body of `Span::unknown`, which core.h
(line 66) only declares.  The spec gives it as `Span("", -1, -1, -1, -1)`. -/
def unknown : ir.Span :=
  Span "" (-1) (-1) (-1) (-1)

end Span

end ir

/-- The maximal run of decimal digits that ends a string, in reading order. -/
def trailingDigits (s : String) : List Char :=
  (s.toList.reverse.takeWhile Char.isDigit).reverse

/-- The number a list of decimal digits denotes, read most significant digit
first (0 for the empty list). -/
def digitsValue (cs : List Char) : Nat :=
  cs.foldl (fun n c => 10 * n + (c.toNat - 48)) 0

/-! ## Properties of the `DataType` queries -/

set_option maxRecDepth 100000

/-- C1: `GetDataTypeBit` returns the documented width on each of the eighteen
declared variants (4 for INT4, UINT4, FP4, HF4; 8 for INT8, UINT8, FP8, HF8,
BOOL; 16 for INT16, UINT16, FP16, BF16; 32 for INT32, UINT32, FP32; 64 for
INT64, UINT64); the list of declared variants has eighteen distinct entries,
and on each of them the width is one of 4, 8, 16, 32, 64. -/
theorem GetDataTypeBit_declared_table :
    (GetDataTypeBit INT4 = 4 ∧ GetDataTypeBit UINT4 = 4 ∧
      GetDataTypeBit FP4 = 4 ∧ GetDataTypeBit HF4 = 4) ∧
    (GetDataTypeBit INT8 = 8 ∧ GetDataTypeBit UINT8 = 8 ∧
      GetDataTypeBit FP8 = 8 ∧ GetDataTypeBit HF8 = 8 ∧ GetDataTypeBit BOOL = 8) ∧
    (GetDataTypeBit INT16 = 16 ∧ GetDataTypeBit UINT16 = 16 ∧
      GetDataTypeBit FP16 = 16 ∧ GetDataTypeBit BF16 = 16) ∧
    (GetDataTypeBit INT32 = 32 ∧ GetDataTypeBit UINT32 = 32 ∧
      GetDataTypeBit FP32 = 32) ∧
    (GetDataTypeBit INT64 = 64 ∧ GetDataTypeBit UINT64 = 64) ∧
    DataType.declared.length = 18 ∧ DataType.declared.Nodup ∧
    (∀ d ∈ DataType.declared, GetDataTypeBit d ∈ [4, 8, 16, 32, 64]) := by
  decide

/-- A tag is outside the declared variants exactly when its underlying value
is 18 or more. -/
theorem DataType.not_mem_declared_iff (d : DataType) :
    d ∉ DataType.declared ↔ 18 ≤ d.tag.val := by
  revert d
  decide

/-- C2: on every tag outside the eighteen declared variants, that is on every
underlying value from 18 to 255, `GetDataTypeBit` returns 0, `DataTypeToString`
returns "unknown", and the four family predicates return false. -/
theorem unrecognized_tag_fallback (d : DataType) (h : d ∉ DataType.declared) :
    18 ≤ d.tag.val ∧ d.tag.val ≤ 255 ∧
    GetDataTypeBit d = 0 ∧ DataTypeToString d = "unknown" ∧
    IsFloat d = false ∧ IsSignedInt d = false ∧ IsUnsignedInt d = false ∧
    IsInt d = false := by
  revert d
  decide

/-- C2 at the tag value 200. -/
theorem unrecognized_tag_fallback_witness :
    (⟨200⟩ : DataType) ∉ DataType.declared ∧
    GetDataTypeBit ⟨200⟩ = 0 ∧ DataTypeToString ⟨200⟩ = "unknown" ∧
    IsFloat ⟨200⟩ = false ∧ IsSignedInt ⟨200⟩ = false ∧
    IsUnsignedInt ⟨200⟩ = false ∧ IsInt ⟨200⟩ = false :=
  ⟨by decide, (unrecognized_tag_fallback ⟨200⟩ (by decide)).2.2⟩

/-- C3: on the eighteen declared variants `DataTypeToString` is injective, and
every name it returns there is non-empty and made only of lowercase ASCII
letters and decimal digits (so it has no uppercase character). -/
theorem DataTypeToString_injective_lowercase :
    (∀ d₁ ∈ DataType.declared, ∀ d₂ ∈ DataType.declared,
      DataTypeToString d₁ = DataTypeToString d₂ → d₁ = d₂) ∧
    (∀ d ∈ DataType.declared,
      DataTypeToString d ≠ "" ∧ 0 < (DataTypeToString d).length ∧
      ∀ c ∈ (DataTypeToString d).toList,
        (c.isLower = true ∨ c.isDigit = true) ∧ c.isUpper = false) := by
  decide

/-- C3 at INT8 and UINT8 (distinct names), and at BF16 (a lowercase name). -/
theorem DataTypeToString_injective_lowercase_witness :
    (DataTypeToString INT8 = DataTypeToString UINT8 → INT8 = UINT8) ∧
    (DataTypeToString BF16 ≠ "" ∧ 0 < (DataTypeToString BF16).length ∧
      ∀ c ∈ (DataTypeToString BF16).toList,
        (c.isLower = true ∨ c.isDigit = true) ∧ c.isUpper = false) :=
  ⟨DataTypeToString_injective_lowercase.1 INT8 (by decide) UINT8 (by decide),
   DataTypeToString_injective_lowercase.2 BF16 (by decide)⟩

/-- C4: for every tag value, declared or not, `IsInt` is the disjunction of
`IsSignedInt` and `IsUnsignedInt`. -/
theorem IsInt_eq_signed_or_unsigned (d : DataType) :
    IsInt d = (IsSignedInt d || IsUnsignedInt d) := rfl

/-- C5: for every tag value no two of `IsFloat`, `IsSignedInt`,
`IsUnsignedInt` hold together, and `IsFloat` and `IsInt` never hold together;
the two remaining pairs, `IsInt` with `IsSignedInt` and `IsInt` with
`IsUnsignedInt`, do overlap. -/
theorem family_predicates_exclusive :
    (∀ d : DataType,
      ¬ (IsFloat d = true ∧ IsSignedInt d = true) ∧
      ¬ (IsFloat d = true ∧ IsUnsignedInt d = true) ∧
      ¬ (IsSignedInt d = true ∧ IsUnsignedInt d = true) ∧
      ¬ (IsFloat d = true ∧ IsInt d = true)) ∧
    (IsInt INT4 = true ∧ IsSignedInt INT4 = true) ∧
    (IsInt UINT4 = true ∧ IsUnsignedInt UINT4 = true) := by
  decide

/-- C6: every declared variant lies in exactly one of the four families
boolean, signed integer, unsigned integer, float: of the four conditions
`d = BOOL`, `IsSignedInt d`, `IsUnsignedInt d`, `IsFloat d` exactly one holds.
Equivalently, among the declared variants the three predicates are all false
on BOOL and only there. -/
theorem declared_exactly_one_family (d : DataType) (h : d ∈ DataType.declared) :
    [decide (d = BOOL), IsSignedInt d, IsUnsignedInt d, IsFloat d].count true = 1 ∧
    ((IsFloat d = false ∧ IsSignedInt d = false ∧ IsUnsignedInt d = false) ↔
      d = BOOL) := by
  revert d
  decide

/-- C6 at the variant HF4, which is in the float family only. -/
theorem declared_exactly_one_family_witness :
    HF4 ∈ DataType.declared ∧
    [decide (HF4 = BOOL), IsSignedInt HF4, IsUnsignedInt HF4, IsFloat HF4].count true = 1 ∧
    ((IsFloat HF4 = false ∧ IsSignedInt HF4 = false ∧ IsUnsignedInt HF4 = false) ↔
      HF4 = BOOL) :=
  ⟨by decide, declared_exactly_one_family HF4 (by decide)⟩

/-- C7: each family predicate is true exactly on its documented members:
`IsFloat` on FP4, FP8, FP16, FP32, BF16, HF4, HF8; `IsSignedInt` on INT4,
INT8, INT16, INT32, INT64; `IsUnsignedInt` on UINT4, UINT8, UINT16, UINT32,
UINT64.  In particular `IsFloat HF8` is true and `IsInt HF8` is false. -/
theorem family_predicates_member_sets :
    (∀ d : DataType,
      (IsFloat d = true ↔ d ∈ [FP4, FP8, FP16, FP32, BF16, HF4, HF8]) ∧
      (IsSignedInt d = true ↔ d ∈ [INT4, INT8, INT16, INT32, INT64]) ∧
      (IsUnsignedInt d = true ↔ d ∈ [UINT4, UINT8, UINT16, UINT32, UINT64])) ∧
    IsFloat HF8 = true ∧ IsInt HF8 = false := by
  decide

/-- C8: `DataTypeToString` gives "int4" for INT4, "bfloat16" for BF16 and
"hf8" for HF8. -/
theorem DataTypeToString_examples :
    DataTypeToString INT4 = "int4" ∧ DataTypeToString BF16 = "bfloat16" ∧
    DataTypeToString HF8 = "hf8" := by
  decide

/-! ## Properties of `Span` -/

namespace ir

/-- C9: `is_valid` is true exactly when the four coordinates are all positive,
and the filename plays no part: two spans with the same coordinates have the
same `is_valid`, whatever their filenames (the empty one included). -/
theorem Span_is_valid_iff_coordinates_positive :
    (∀ s : Span, s.is_valid = true ↔
      (s.begin_line_ > 0 ∧ s.begin_column_ > 0 ∧ s.end_line_ > 0 ∧ s.end_column_ > 0)) ∧
    (∀ (f g : String) (bl bc el ec : Int),
      (Span.Span f bl bc el ec).is_valid = (Span.Span g bl bc el ec).is_valid) ∧
    (∀ (f : String) (bl bc el ec : Int),
      (Span.Span f bl bc el ec).is_valid = (Span.Span "" bl bc el ec).is_valid) := by
  refine ⟨fun s => ?_, fun f g bl bc el ec => rfl, fun f bl bc el ec => rfl⟩
  simp [Span.is_valid, and_assoc]

/-- C10: for every filename and every two integers, positive or not, the span
built by `Span(filename, line, column)` has `end_line_ = -1` and
`end_column_ = -1`, keeps the three arguments, and is not valid. -/
theorem Span_default_end_not_valid (file : String) (line column : Int) :
    (Span.SpanDefaultEnd file line column).end_line_ = -1 ∧
    (Span.SpanDefaultEnd file line column).end_column_ = -1 ∧
    (Span.SpanDefaultEnd file line column).filename_ = file ∧
    (Span.SpanDefaultEnd file line column).begin_line_ = line ∧
    (Span.SpanDefaultEnd file line column).begin_column_ = column ∧
    (Span.SpanDefaultEnd file line column).is_valid = false := by
  simp [Span.SpanDefaultEnd, Span.Span, Span.is_valid]

/-- C11: a span whose four coordinates are all positive is valid; for every
span, `to_string` is the filename, a colon, the decimal rendering of
`begin_line_`, a colon, and the decimal rendering of `begin_column_`; the end
coordinates do not affect it; and `Span("a.py", 3, 5).to_string()` is
"a.py:3:5". -/
theorem Span_to_string_format :
    (∀ s : Span, s.begin_line_ > 0 → s.begin_column_ > 0 → s.end_line_ > 0 →
      s.end_column_ > 0 → s.is_valid = true) ∧
    (∀ s : Span, s.to_string =
      s.filename_ ++ ":" ++ toString s.begin_line_ ++ ":" ++ toString s.begin_column_) ∧
    (∀ (f : String) (bl bc el ec el2 ec2 : Int),
      (Span.Span f bl bc el ec).to_string = (Span.Span f bl bc el2 ec2).to_string) ∧
    (Span.SpanDefaultEnd "a.py" 3 5).to_string = "a.py:3:5" ∧
    (Span.Span "a.py" 3 5 7 9).to_string = "a.py:3:5" ∧
    (Span.Span "dir/b.py" 120 (-4) 0 0).to_string = "dir/b.py:120:-4" := by
  refine ⟨fun s h1 h2 h3 h4 => ?_, fun s => rfl, fun f bl bc el ec el2 ec2 => rfl,
    by decide, by decide, by decide⟩
  simp [Span.is_valid, h1, h2, h3, h4]

/-- C11 at the span `Span("a.py", 3, 5, 7, 9)`, whose coordinates are all
positive. -/
theorem Span_to_string_format_witness :
    (Span.Span "a.py" 3 5 7 9).is_valid = true :=
  Span_to_string_format.1 (Span.Span "a.py" 3 5 7 9)
    (by decide) (by decide) (by decide) (by decide)

/-- C12: `Span::unknown()` has the empty filename and all four coordinates
equal to -1, so it equals `Span("", -1, -1, -1, -1)` field by field, and it is
not valid. -/
theorem Span_unknown_fields :
    Span.unknown.filename_ = "" ∧ Span.unknown.begin_line_ = -1 ∧
    Span.unknown.begin_column_ = -1 ∧ Span.unknown.end_line_ = -1 ∧
    Span.unknown.end_column_ = -1 ∧
    Span.unknown = Span.Span "" (-1) (-1) (-1) (-1) ∧
    Span.unknown.is_valid = false := by
  refine ⟨rfl, rfl, rfl, rfl, rfl, rfl, ?_⟩
  decide

/-- C13: construction is total and checks no range: for every filename and
every four integers, zero and negative ones included, the five fields of the
constructed span are the five arguments; and when some coordinate is not
positive the span exists and is not valid. -/
theorem Span_constructor_verbatim (file : String) (bl bc el ec : Int) :
    (Span.Span file bl bc el ec).filename_ = file ∧
    (Span.Span file bl bc el ec).begin_line_ = bl ∧
    (Span.Span file bl bc el ec).begin_column_ = bc ∧
    (Span.Span file bl bc el ec).end_line_ = el ∧
    (Span.Span file bl bc el ec).end_column_ = ec ∧
    ((bl ≤ 0 ∨ bc ≤ 0 ∨ el ≤ 0 ∨ ec ≤ 0) →
      (Span.Span file bl bc el ec).is_valid = false) := by
  refine ⟨rfl, rfl, rfl, rfl, rfl, fun h => ?_⟩
  simp only [Span.is_valid, Span.Span, Bool.and_eq_false_iff, decide_eq_false_iff_not,
    not_lt, gt_iff_lt]
  tauto

/-- C13 at `Span("x.py", 0, -7, 2, 3)`, which has a zero and a negative
coordinate. -/
theorem Span_constructor_verbatim_witness :
    (Span.Span "x.py" 0 (-7) 2 3).begin_line_ = 0 ∧
    (Span.Span "x.py" 0 (-7) 2 3).begin_column_ = -7 ∧
    (Span.Span "x.py" 0 (-7) 2 3).is_valid = false :=
  ⟨(Span_constructor_verbatim "x.py" 0 (-7) 2 3).2.1,
   (Span_constructor_verbatim "x.py" 0 (-7) 2 3).2.2.1,
   (Span_constructor_verbatim "x.py" 0 (-7) 2 3).2.2.2.2.2 (Or.inl (by decide))⟩

end ir

/-! ## Sentinels, name suffixes and tag ranges of `DataType` -/

/-- C16: the sentinels detect unrecognized tags exactly: for every tag value,
`GetDataTypeBit` is 0 iff the tag is not a declared variant, and
`DataTypeToString` is "unknown" iff the tag is not a declared variant; hence
the two sentinels agree, and no declared variant has width 0 or the name
"unknown". -/
theorem sentinels_detect_unrecognized :
    (∀ d : DataType, GetDataTypeBit d = 0 ↔ d ∉ DataType.declared) ∧
    (∀ d : DataType, DataTypeToString d = "unknown" ↔ d ∉ DataType.declared) ∧
    (∀ d : DataType, GetDataTypeBit d = 0 ↔ DataTypeToString d = "unknown") ∧
    (∀ d ∈ DataType.declared,
      GetDataTypeBit d ≠ 0 ∧ DataTypeToString d ≠ "unknown") := by
  decide

/-- C17: for every declared variant other than BOOL the display name ends with
the decimal rendering of the bit width: the maximal trailing digit run of the
name is that rendering, and read as a number it is the width.  The name of
BOOL has no digit. -/
theorem names_end_with_width :
    (∀ d ∈ DataType.declared, d ≠ BOOL →
      trailingDigits (DataTypeToString d) = (toString (GetDataTypeBit d)).toList ∧
      digitsValue (trailingDigits (DataTypeToString d)) = GetDataTypeBit d ∧
      (toString (GetDataTypeBit d)).toList <:+ (DataTypeToString d).toList) ∧
    (∀ c ∈ (DataTypeToString BOOL).toList, c.isDigit = false) ∧
    trailingDigits (DataTypeToString BOOL) = [] := by
  decide

/-- C17 at BF16: the name "bfloat16" ends with the digit run "16", and the
width is 16. -/
theorem names_end_with_width_witness :
    trailingDigits (DataTypeToString BF16) = (toString (GetDataTypeBit BF16)).toList ∧
    digitsValue (trailingDigits (DataTypeToString BF16)) = GetDataTypeBit BF16 ∧
    (toString (GetDataTypeBit BF16)).toList <:+ (DataTypeToString BF16).toList :=
  names_end_with_width.1 BF16 (by decide) (by decide)

/-- C18: the family predicates are contiguous ranges of the underlying tag:
for every tag value t in 0..255, `IsSignedInt` holds iff 1 ≤ t ≤ 5,
`IsUnsignedInt` iff 6 ≤ t ≤ 10, `IsInt` iff 1 ≤ t ≤ 10, and `IsFloat` iff
11 ≤ t ≤ 17. -/
theorem family_predicates_tag_ranges (d : DataType) :
    (IsSignedInt d = true ↔ 1 ≤ d.tag.val ∧ d.tag.val ≤ 5) ∧
    (IsUnsignedInt d = true ↔ 6 ≤ d.tag.val ∧ d.tag.val ≤ 10) ∧
    (IsInt d = true ↔ 1 ≤ d.tag.val ∧ d.tag.val ≤ 10) ∧
    (IsFloat d = true ↔ 11 ≤ d.tag.val ∧ d.tag.val ≤ 17) := by
  revert d
  decide

/-- The tags on which `IsSignedInt` holds are the five signed enumerators. -/
theorem IsSignedInt_cases (d : DataType) (h : IsSignedInt d = true) :
    d = INT4 ∨ d = INT8 ∨ d = INT16 ∨ d = INT32 ∨ d = INT64 := by
  revert d
  decide

/-- The tags on which `IsUnsignedInt` holds are the five unsigned enumerators. -/
theorem IsUnsignedInt_cases (d : DataType) (h : IsUnsignedInt d = true) :
    d = UINT4 ∨ d = UINT8 ∨ d = UINT16 ∨ d = UINT32 ∨ d = UINT64 := by
  revert d
  decide

/-- C19: signed and unsigned integer variants are paired by width.  For every
tag t with 1 ≤ t ≤ 5 the variant of tag t is a signed integer, the variant of
tag t + 5 is an unsigned integer of the same bit width, and its name is "u"
followed by the name of the signed variant.  `GetDataTypeBit` is injective on
the signed variants and on the unsigned variants, and each of the widths 4, 8,
16, 32, 64 is taken by a signed and by an unsigned variant. -/
theorem signed_unsigned_paired_by_width :
    (∀ t : Fin 256, 1 ≤ t.val → t.val ≤ 5 →
      IsSignedInt ⟨t⟩ = true ∧ (t + 5).val = t.val + 5 ∧
      IsUnsignedInt ⟨t + 5⟩ = true ∧
      GetDataTypeBit ⟨t + 5⟩ = GetDataTypeBit ⟨t⟩ ∧
      DataTypeToString ⟨t + 5⟩ = "u" ++ DataTypeToString ⟨t⟩) ∧
    (∀ d₁ d₂ : DataType, IsSignedInt d₁ = true → IsSignedInt d₂ = true →
      GetDataTypeBit d₁ = GetDataTypeBit d₂ → d₁ = d₂) ∧
    (∀ d₁ d₂ : DataType, IsUnsignedInt d₁ = true → IsUnsignedInt d₂ = true →
      GetDataTypeBit d₁ = GetDataTypeBit d₂ → d₁ = d₂) ∧
    (∀ w ∈ [4, 8, 16, 32, 64],
      (∃ d ∈ DataType.declared, IsSignedInt d = true ∧ GetDataTypeBit d = w) ∧
      (∃ d ∈ DataType.declared, IsUnsignedInt d = true ∧ GetDataTypeBit d = w)) := by
  refine ⟨by decide, fun d₁ d₂ h₁ h₂ => ?_, fun d₁ d₂ h₁ h₂ => ?_, by decide⟩
  · rcases IsSignedInt_cases d₁ h₁ with rfl | rfl | rfl | rfl | rfl <;>
      rcases IsSignedInt_cases d₂ h₂ with rfl | rfl | rfl | rfl | rfl <;>
      decide
  · rcases IsUnsignedInt_cases d₁ h₁ with rfl | rfl | rfl | rfl | rfl <;>
      rcases IsUnsignedInt_cases d₂ h₂ with rfl | rfl | rfl | rfl | rfl <;>
      decide

/-- C19 at INT16 (tag 3) and UINT16 (tag 8). -/
theorem signed_unsigned_paired_by_width_witness :
    IsSignedInt INT16 = true ∧ IsUnsignedInt UINT16 = true ∧
    GetDataTypeBit UINT16 = GetDataTypeBit INT16 ∧
    DataTypeToString UINT16 = "u" ++ DataTypeToString INT16 :=
  ⟨(signed_unsigned_paired_by_width.1 3 (by decide) (by decide)).1,
   (signed_unsigned_paired_by_width.1 3 (by decide) (by decide)).2.2.1,
   (signed_unsigned_paired_by_width.1 3 (by decide) (by decide)).2.2.2.1,
   (signed_unsigned_paired_by_width.1 3 (by decide) (by decide)).2.2.2.2⟩

end pypto
